import Mathlib

/-!
# Verification of the portfolio-site front-end widgets

Shallow embedding of the JavaScript widgets of this repository
(blog loader, Google Scholar stats widget, chat widget, OCR tool)
together with proofs of the specified properties.

Time is modelled in milliseconds as `Nat` (JavaScript `Date.now()`),
localStorage values as explicit state, network responses as explicit
inputs, and DOM rendering as the data the code would inject.
-/

/-- JavaScript's `String.prototype.trim()`: strip leading and trailing
whitespace.  (Defined on the character list so that it evaluates inside
the kernel; `Char.isWhitespace` stands for the JS whitespace class.) -/
def jsTrim (s : String) : String :=
  ⟨((s.data.dropWhile Char.isWhitespace).reverse.dropWhile
      Char.isWhitespace).reverse⟩

/-- JavaScript's `String.prototype.toLowerCase()` on the ASCII strings
this code compares. -/
def jsToLower (s : String) : String := ⟨s.data.map Char.toLower⟩

namespace Scholar

/-- The localStorage cell under the key `scholar_stats_cache`, as the
Scholar widget sees it after `localStorage.getItem` + `JSON.parse`:
either no value is stored, or the stored string does not parse
(`JSON.parse` throws, caught by `getCachedData`), or it holds a
`{metrics, timestamp}` record.  The metrics payload is opaque to the
caching logic, hence the type parameter `M`. -/
inductive CacheCell (M : Type) where
  | absent
  | corrupt
  | entry (metrics : M) (timestamp : Nat)
deriving DecidableEq, Repr

/-- `this.cacheDuration = 3 * 24 * 60 * 60 * 1000` (3 days in ms). -/
def cacheDuration : Nat := 3 * 24 * 60 * 60 * 1000

/-- `this.retryAttempts = 3`. -/
def retryAttempts : Nat := 3

/-- `this.retryDelay = 1000`. -/
def retryDelay : Nat := 1000

/-- `ScholarStatsWidget.getCachedData(ignoreExpiry)`: returns the cached
metrics, `none` when nothing usable is stored.  With `ignoreExpiry` the
timestamp is not inspected; otherwise the entry must be younger than
`cacheDuration`.  (JS computes `Date.now() - data.timestamp`; for a
timestamp in the future the JS difference is negative and hence below
`cacheDuration`, matching truncated `Nat` subtraction.) -/
def getCachedData (M : Type) (ignoreExpiry : Bool) (cell : CacheCell M) (now : Nat) :
    Option M :=
  match cell with
  | .absent => none
  | .corrupt => none
  | .entry m ts =>
    if ignoreExpiry then some m
    else if now - ts < cacheDuration then some m
    else none

/-- Observable outcome of `fetchStats`: the returned value or thrown
error, the cache cell afterwards, how many `fetch` calls were made and
the delays awaited between consecutive attempts. -/
structure FetchStatsResult (M E : Type) where
  result : Except E M
  cell : CacheCell M
  attemptsMade : Nat
  waits : List Nat
deriving Repr

/-- Record the `await new Promise(... setTimeout(..., delay))` pause
performed before a retry, in front of the pauses of the later attempts. -/
def addWait (M E : Type) (w : Nat) (r : FetchStatsResult M E) : FetchStatsResult M E :=
  { r with waits := w :: r.waits }

/-- The retry `for`-loop body of `ScholarStatsWidget.fetchStats`.
`net k` is the outcome of the `k`-th fetch/parse/validate attempt
(`.ok m` when valid metrics were extracted, `.error e` when the attempt
threw).  `remaining` counts the attempts still allowed after the current
one, so the loop is entered with `attempt = 1`,
`remaining = retryAttempts - 1`; `remaining = 0` means
`attempt = this.retryAttempts`, where the JS falls into the
expired-cache fallback instead of waiting. -/
def attemptLoop (M E : Type) (net : Nat → Except E M) (cell : CacheCell M)
    (now : Nat) : Nat → Nat → FetchStatsResult M E
  | attempt, 0 =>
    match net attempt with
    | .ok m =>
      { result := .ok m, cell := .entry m now, attemptsMade := attempt, waits := [] }
    | .error e =>
      match getCachedData M true cell now with
      | some m =>
        { result := .ok m, cell := cell, attemptsMade := attempt, waits := [] }
      | none =>
        { result := .error e, cell := cell, attemptsMade := attempt, waits := [] }
  | attempt, remaining + 1 =>
    match net attempt with
    | .ok m =>
      { result := .ok m, cell := .entry m now, attemptsMade := attempt, waits := [] }
    | .error _ =>
      addWait M E (retryDelay * attempt)
        (attemptLoop M E net cell now (attempt + 1) remaining)

/-- `ScholarStatsWidget.fetchStats()`: return fresh cached metrics when
available, otherwise run the 3-attempt retry loop (caching a successful
result with the current timestamp, falling back to the expired cache
when every attempt failed, and propagating the last error when there is
no cache either). -/
def fetchStats (M E : Type) (net : Nat → Except E M) (cell : CacheCell M)
    (now : Nat) : FetchStatsResult M E :=
  match getCachedData M false cell now with
  | some m => { result := .ok m, cell := cell, attemptsMade := 0, waits := [] }
  | none => attemptLoop M E net cell now 1 (retryAttempts - 1)

/-- The retry loop stops at an attempt number between the starting one
and the starting one plus the remaining allowance. -/
theorem attemptLoop_attempts_bounds (M E : Type) (net : Nat → Except E M)
    (cell : CacheCell M) (now : Nat) :
    ∀ (remaining attempt : Nat),
      attempt ≤ (attemptLoop M E net cell now attempt remaining).attemptsMade ∧
      (attemptLoop M E net cell now attempt remaining).attemptsMade ≤
        attempt + remaining := by
  intro remaining
  induction remaining with
  | zero =>
    intro attempt
    unfold attemptLoop
    cases h : net attempt with
    | ok m => simp
    | error e =>
      cases hc : getCachedData M true cell now with
      | none => simp
      | some m => simp
  | succ n ih =>
    intro attempt
    unfold attemptLoop
    cases h : net attempt with
    | ok m => simp
    | error e =>
      have hrec := ih (attempt + 1)
      simp only [addWait]
      omega

/-- Unrolling the loop at its entry point: first of three attempts. -/
theorem attemptLoop_one_two (M E : Type) (net : Nat → Except E M)
    (cell : CacheCell M) (now : Nat) :
    attemptLoop M E net cell now 1 2 =
      match net 1 with
      | .ok m =>
        { result := .ok m, cell := .entry m now, attemptsMade := 1, waits := [] }
      | .error _ =>
        addWait M E (retryDelay * 1) (attemptLoop M E net cell now 2 1) := rfl

/-- Unrolling the loop: second of three attempts. -/
theorem attemptLoop_two_one (M E : Type) (net : Nat → Except E M)
    (cell : CacheCell M) (now : Nat) :
    attemptLoop M E net cell now 2 1 =
      match net 2 with
      | .ok m =>
        { result := .ok m, cell := .entry m now, attemptsMade := 2, waits := [] }
      | .error _ =>
        addWait M E (retryDelay * 2) (attemptLoop M E net cell now 3 0) := rfl

/-- Unrolling the loop: the last attempt, with the stale-cache fallback. -/
theorem attemptLoop_three_zero (M E : Type) (net : Nat → Except E M)
    (cell : CacheCell M) (now : Nat) :
    attemptLoop M E net cell now 3 0 =
      match net 3 with
      | .ok m =>
        { result := .ok m, cell := .entry m now, attemptsMade := 3, waits := [] }
      | .error e =>
        match getCachedData M true cell now with
        | some m =>
          { result := .ok m, cell := cell, attemptsMade := 3, waits := [] }
        | none =>
          { result := .error e, cell := cell, attemptsMade := 3, waits := [] } := rfl

/-- C1: when no fresh cached value is available,
`ScholarStatsWidget.fetchStats` makes at most 3 fetch attempts, waiting
`retryDelay * attempt` milliseconds between consecutive attempts; if
every attempt fails it returns the expired cached metrics when a cache
entry exists under `scholar_stats_cache`, and otherwise propagates the
last error to the caller. -/
theorem fetchStats_retry_and_stale_fallback (M E : Type)
    (net : Nat → Except E M) (cell : CacheCell M) (now : Nat)
    (hfresh : getCachedData M false cell now = none)
    (e1 e2 e3 : E)
    (h1 : net 1 = .error e1) (h2 : net 2 = .error e2) (h3 : net 3 = .error e3) :
    (∀ net2 : Nat → Except E M,
      (fetchStats M E net2 cell now).attemptsMade ≤ retryAttempts) ∧
    (fetchStats M E net cell now).attemptsMade = retryAttempts ∧
    (fetchStats M E net cell now).waits = [retryDelay * 1, retryDelay * 2] ∧
    (∀ m ts, cell = .entry m ts →
      (fetchStats M E net cell now).result = .ok m) ∧
    ((cell = .absent ∨ cell = .corrupt) →
      (fetchStats M E net cell now).result = .error e3) := by
  refine ⟨?_, ?_⟩
  · intro net2
    unfold fetchStats
    rw [hfresh]
    exact (attemptLoop_attempts_bounds M E net2 cell now (retryAttempts - 1) 1).2
  · have hloop : fetchStats M E net cell now = attemptLoop M E net cell now 1 2 := by
      unfold fetchStats
      rw [hfresh]
      rfl
    rw [hloop, attemptLoop_one_two, h1]
    simp only [attemptLoop_two_one, h2, attemptLoop_three_zero, h3]
    cases cell with
    | absent => simp [getCachedData, addWait, retryAttempts, retryDelay]
    | corrupt => simp [getCachedData, addWait, retryAttempts, retryDelay]
    | entry m ts =>
      simp [getCachedData, addWait, retryAttempts, retryDelay]

/-- C1 witness: all three attempts fail with no cache entry, so exactly
three attempts are made, the waits are 1000 ms and 2000 ms, and the
last error is propagated. -/
theorem fetchStats_retry_and_stale_fallback_witness :
    (∀ net2 : Nat → Except Nat Nat,
      (fetchStats Nat Nat net2 .absent 5).attemptsMade ≤ retryAttempts) ∧
    (fetchStats Nat Nat (fun _ => .error 7) .absent 5).attemptsMade =
      retryAttempts ∧
    (fetchStats Nat Nat (fun _ => .error 7) .absent 5).waits =
      [retryDelay * 1, retryDelay * 2] ∧
    (∀ m ts, (CacheCell.absent : CacheCell Nat) = .entry m ts →
      (fetchStats Nat Nat (fun _ => .error 7) .absent 5).result = .ok m) ∧
    ((CacheCell.absent : CacheCell Nat) = .absent ∨
        (CacheCell.absent : CacheCell Nat) = .corrupt →
      (fetchStats Nat Nat (fun _ => .error 7) .absent 5).result = .error 7) :=
  fetchStats_retry_and_stale_fallback Nat Nat (fun _ => .error 7) .absent 5
    rfl 7 7 7 rfl rfl rfl

/-- C2: a cache entry younger than 3 days is returned without any
network request; an entry 3 days old or older, a missing entry, or an
unparseable entry makes `fetchStats` fetch from the API, and a
successful fetch stores the new metrics with the current timestamp. -/
theorem fetchStats_cache_ttl (M E : Type) (net : Nat → Except E M)
    (cell : CacheCell M) (now : Nat) :
    (∀ m ts, cell = .entry m ts → now - ts < cacheDuration →
      fetchStats M E net cell now =
        { result := .ok m, cell := cell, attemptsMade := 0, waits := [] }) ∧
    (∀ m ts, cell = .entry m ts → cacheDuration ≤ now - ts →
      getCachedData M false cell now = none) ∧
    (cell = .absent → getCachedData M false cell now = none) ∧
    (cell = .corrupt → getCachedData M false cell now = none) ∧
    (getCachedData M false cell now = none →
      1 ≤ (fetchStats M E net cell now).attemptsMade) ∧
    (getCachedData M false cell now = none → ∀ m, net 1 = .ok m →
      fetchStats M E net cell now =
        { result := .ok m, cell := .entry m now, attemptsMade := 1,
          waits := [] }) := by
  refine ⟨?_, ?_, ?_, ?_, ?_, ?_⟩
  · intro m ts hcell hage
    subst hcell
    unfold fetchStats
    simp [getCachedData, hage]
  · intro m ts hcell hage
    subst hcell
    simp [getCachedData]
    omega
  · intro h; subst h; rfl
  · intro h; subst h; rfl
  · intro hnone
    unfold fetchStats
    rw [hnone]
    exact (attemptLoop_attempts_bounds M E net cell now (retryAttempts - 1) 1).1
  · intro hnone m hok
    unfold fetchStats
    rw [hnone]
    show attemptLoop M E net cell now 1 2 = _
    rw [attemptLoop_one_two, hok]

/-- C2 witness: a fresh entry (age 10 ms) is served from the cache with
no fetch; with an absent cache a first successful attempt is fetched,
returned and stored with the current timestamp. -/
theorem fetchStats_cache_ttl_witness :
    (fetchStats Nat Nat (fun _ => .error 7) (.entry 42 0) 10 =
      { result := .ok 42, cell := .entry 42 0, attemptsMade := 0,
        waits := [] }) ∧
    (fetchStats Nat Nat (fun _ => .ok 9) .absent 5 =
      { result := .ok 9, cell := .entry 9 5, attemptsMade := 1,
        waits := [] }) :=
  ⟨(fetchStats_cache_ttl Nat Nat (fun _ => .error 7) (.entry 42 0) 10).1
      42 0 rfl (by decide),
   (fetchStats_cache_ttl Nat Nat (fun _ => .ok 9) .absent 5).2.2.2.2.2
      rfl 9 rfl⟩

end Scholar

namespace Blog

/-- `CONFIG.POSTS_PER_PAGE`. -/
def POSTS_PER_PAGE : Nat := 6

/-- `CONFIG.VALID_STATUSES`. -/
def VALID_STATUSES : List String := ["ready", "posted"]

/-- `CONFIG.ROTATION_INTERVAL` (2 hours in ms). -/
def ROTATION_INTERVAL : Nat := 7200000

/-- A row of the posts sheet, restricted to the fields the filtering
logic reads.  `none` models a missing (`undefined`) field; JS treats a
missing field and the empty string alike in the `||`/truthiness checks
below, and so do these definitions. -/
structure Post where
  idea : Option String
  status : Option String
deriving DecidableEq, Repr

/-- The predicate inside `api.filterPosts`' `posts.filter(...)`:
reject a missing or whitespace-only `idea` (`!post.idea ||
post.idea.trim() === ''`), then require
`(post.status || '').toLowerCase().trim()` to be a valid status. -/
def filterPredicate (post : Post) : Bool :=
  match post.idea with
  | none => false
  | some idea =>
    if jsTrim idea = "" then false
    else VALID_STATUSES.contains (jsTrim (jsToLower (post.status.getD "")))

/-- `api.filterPosts(posts)`. -/
def filterPosts (posts : List Post) : List Post :=
  posts.filter filterPredicate

/-- The HTTP response of the blog-posts endpoint as `api.fetchPosts`
inspects it: the `response.ok` flag and the parsed JSON body (`none`
when `response.json()` throws).  The body's `success` flag is a
truthiness test and `posts` is `none` when the field is missing or not
an array (`!Array.isArray(data.posts)`). -/
structure PostsBody where
  success : Bool
  posts : Option (List Post)
deriving Repr

structure PostsResponse where
  ok : Bool
  body : Option PostsBody
deriving Repr

/-- `api.fetchPosts()`: throw on a non-ok response, a JSON parse
failure, a falsy `success` or a non-array `posts`; otherwise return
`data.posts` unchanged. -/
def fetchPosts (resp : PostsResponse) : Except String (List Post) :=
  if resp.ok = false then
    .error "HTTP error! status"
  else
    match resp.body with
    | none => .error "JSON parse error"
    | some data =>
      if data.success = false then .error "Invalid API response format"
      else
        match data.posts with
        | none => .error "Invalid API response format"
        | some posts => .ok posts

/-- What `BlogLoader.init` leaves on the page: either the filtered
posts were handed to a renderer (`ui.renderPosts` on the blog page,
`ui.renderHomepagePosts` on the homepage), or the catch block showed
the fixed inline error message. -/
inductive InitOutcome where
  | rendered (validPosts : List Post)
  | errorShown (message : String)
deriving Repr

/-- `BlogLoader.init()`. -/
def BlogLoader_init (resp : PostsResponse) : InitOutcome :=
  match fetchPosts resp with
  | .ok allPosts => .rendered (filterPosts allPosts)
  | .error _ => .errorShown "Unable to load blog posts. Please try again later."

/-- `ui.renderPosts(posts, page)`, as the data it renders: on an empty
filtered list nothing is rendered and the pagination section is hidden;
otherwise the current page is clamped to the page count and the
`slice(startIndex, endIndex)` of the posts is displayed. -/
inductive RenderOutcome (α : Type) where
  | noPosts
  | page (displayed : List α) (currentPage totalPages : Nat)
deriving Repr

def renderPosts (α : Type) (posts : List α) (page : Nat) : RenderOutcome α :=
  if posts.length = 0 then .noPosts
  else
    let totalPages := (posts.length + POSTS_PER_PAGE - 1) / POSTS_PER_PAGE
    let currentPage := min page totalPages
    let startIndex := (currentPage - 1) * POSTS_PER_PAGE
    let endIndex := startIndex + POSTS_PER_PAGE
    .page ((posts.drop startIndex).take (endIndex - startIndex))
      currentPage totalPages

/-- The two rotation values `ui.renderHomepagePosts` keeps in
localStorage: `blog_rotation_index` and `blog_last_rotation` (both
parsed with `parseInt(... || '0')`). -/
structure RotationState where
  rotationIndex : Nat
  lastRotation : Nat
deriving DecidableEq, Repr

/-- What `ui.renderHomepagePosts(posts)` does: rotate the index by 6
(mod `posts.length`) when more than two hours have passed since the
last rotation, store the new rotation state, and display
`min(6, posts.length)` posts starting at the rotation index, wrapping
around. -/
structure HomepageRender (α : Type) where
  displayed : List (Option α)
  state : RotationState
deriving Repr

def renderHomepagePosts (α : Type) (posts : List α) (st : RotationState)
    (now : Nat) : HomepageRender α :=
  let rotationIndex :=
    if ROTATION_INTERVAL < now - st.lastRotation
    then (st.rotationIndex + 6) % posts.length
    else st.rotationIndex
  let newState : RotationState :=
    if ROTATION_INTERVAL < now - st.lastRotation
    then { rotationIndex := rotationIndex, lastRotation := now }
    else st
  { displayed :=
      (List.range (min 6 posts.length)).map
        (fun i => posts[(rotationIndex + i) % posts.length]?),
    state := newState }

/-- The `filter` predicate agrees with the claim's description of which
posts are kept. -/
theorem filterPredicate_iff (post : Post) :
    filterPredicate post = true ↔
      (∃ s, post.idea = some s ∧ jsTrim s ≠ "") ∧
      (jsTrim (jsToLower (post.status.getD "")) = "ready" ∨
       jsTrim (jsToLower (post.status.getD "")) = "posted") := by
  unfold filterPredicate
  cases hidea : post.idea with
  | none => simp
  | some s =>
    by_cases htrim : jsTrim s = ""
    · simp [htrim]
    · simp [htrim, VALID_STATUSES]

/-- C8: `api.filterPosts` returns exactly the posts whose `idea` field
is present and non-empty after trimming and whose lowercased, trimmed
`status` (missing status read as the empty string) is `ready` or
`posted`, preserving their original order. -/
theorem filterPosts_spec (posts : List Post) :
    List.Sublist (filterPosts posts) posts ∧
    ∀ post, post ∈ filterPosts posts ↔
      post ∈ posts ∧
      (∃ s, post.idea = some s ∧ jsTrim s ≠ "") ∧
      (jsTrim (jsToLower (post.status.getD "")) = "ready" ∨
       jsTrim (jsToLower (post.status.getD "")) = "posted") := by
  refine ⟨List.filter_sublist posts, fun post => ?_⟩
  rw [filterPosts, List.mem_filter, filterPredicate_iff]

/-- C8 witness: of three concrete posts, the one with idea `A` and
status `Ready` is kept; a whitespace-only idea and a `draft` status are
dropped, and the result is a sublist of the input. -/
theorem filterPosts_spec_witness :
    filterPosts
        [{ idea := some "A", status := some "Ready" },
         { idea := some " ", status := some "posted" },
         { idea := some "B", status := some "draft" }] =
      [{ idea := some "A", status := some "Ready" }] ∧
    List.Sublist
      (filterPosts
        [{ idea := some "A", status := some "Ready" },
         { idea := some " ", status := some "posted" },
         { idea := some "B", status := some "draft" }])
      [{ idea := some "A", status := some "Ready" },
       { idea := some " ", status := some "posted" },
       { idea := some "B", status := some "draft" }] :=
  ⟨by decide,
   (filterPosts_spec
      [{ idea := some "A", status := some "Ready" },
       { idea := some " ", status := some "posted" },
       { idea := some "B", status := some "draft" }]).1⟩

/-- C4: a non-ok response, a falsy `success` field or a non-array
`posts` field makes `api.fetchPosts` raise an error, which
`BlogLoader.init` turns into the fixed inline message; otherwise
`fetchPosts` returns the `posts` array unchanged. -/
theorem fetchPosts_error_handling (resp : PostsResponse) :
    ((resp.ok = false ∨
      (∃ d, resp.body = some d ∧ (d.success = false ∨ d.posts = none))) →
      (∃ e, fetchPosts resp = .error e) ∧
      BlogLoader_init resp =
        .errorShown "Unable to load blog posts. Please try again later.") ∧
    (∀ d posts, resp.ok = true → resp.body = some d → d.success = true →
      d.posts = some posts → fetchPosts resp = .ok posts) := by
  constructor
  · intro hbad
    have herr : ∃ e, fetchPosts resp = .error e := by
      cases hok : resp.ok with
      | false => exact ⟨"HTTP error! status", by simp [fetchPosts, hok]⟩
      | true =>
        rcases hbad with hok2 | ⟨d, hbody, hd⟩
        · simp [hok] at hok2
        · refine ⟨"Invalid API response format", ?_⟩
          rcases hd with hsucc | hposts
          · simp [fetchPosts, hok, hbody, hsucc]
          · cases hs : d.success with
            | false => simp [fetchPosts, hok, hbody, hs]
            | true => simp [fetchPosts, hok, hbody, hs, hposts]
    refine ⟨herr, ?_⟩
    rcases herr with ⟨e, he⟩
    simp [BlogLoader_init, he]
  · intro d posts hok hbody hsucc hposts
    simp [fetchPosts, hok, hbody, hsucc, hposts]

/-- C4 witness: a non-ok response (here with an otherwise well-formed
body) produces the fixed inline error message. -/
theorem fetchPosts_error_handling_witness :
    (∃ e, fetchPosts { ok := false, body := some { success := true, posts := some [] } } =
        .error e) ∧
    BlogLoader_init { ok := false, body := some { success := true, posts := some [] } } =
      .errorShown "Unable to load blog posts. Please try again later." :=
  (fetchPosts_error_handling
      { ok := false, body := some { success := true, posts := some [] } }).1
    (Or.inl rfl)

/-- C6: on a non-empty list of `n` filtered posts and a requested page
`p ≥ 1`, `ui.renderPosts` clamps the current page to `min p ⌈n/6⌉` and
displays the posts at indices `(currentPage-1)*6` onwards, at most 6 of
them, in order; on an empty list it renders nothing. -/
theorem renderPosts_pagination (α : Type) (posts : List α) (p : Nat)
    (hne : posts ≠ []) (hp : 1 ≤ p) :
    renderPosts α [] p = .noPosts ∧
    ∃ displayed,
      renderPosts α posts p =
        .page displayed (min p ((posts.length + POSTS_PER_PAGE - 1) / POSTS_PER_PAGE))
          ((posts.length + POSTS_PER_PAGE - 1) / POSTS_PER_PAGE) ∧
      displayed.length ≤ POSTS_PER_PAGE ∧
      displayed.length =
        min POSTS_PER_PAGE
          (posts.length -
            (min p ((posts.length + POSTS_PER_PAGE - 1) / POSTS_PER_PAGE) - 1) *
              POSTS_PER_PAGE) ∧
      (∀ i, i < displayed.length →
        displayed[i]? =
          posts[(min p ((posts.length + POSTS_PER_PAGE - 1) / POSTS_PER_PAGE) - 1) *
              POSTS_PER_PAGE + i]?) ∧
      0 < displayed.length := by
  have hlen : posts.length ≠ 0 := by
    intro h
    exact hne (List.length_eq_zero.mp h)
  constructor
  · rfl
  · unfold renderPosts
    rw [if_neg hlen]
    refine ⟨_, rfl, ?_, ?_, ?_, ?_⟩
    · simp [List.length_take]
    · simp [List.length_take, List.length_drop, Nat.add_sub_cancel_left,
        Nat.min_comm]
    · intro i hi
      rw [List.length_take, List.length_drop, Nat.add_sub_cancel_left] at hi
      rw [Nat.add_sub_cancel_left, List.getElem?_take,
        if_pos (lt_of_lt_of_le hi (Nat.min_le_left _ _)), List.getElem?_drop]
    · rw [List.length_take, List.length_drop, Nat.add_sub_cancel_left]
      simp only [POSTS_PER_PAGE] at *
      have hlen1 : 1 ≤ posts.length := Nat.one_le_iff_ne_zero.mpr hlen
      rcases Nat.le_total p ((posts.length + 6 - 1) / 6) with hple | hple
      · rw [Nat.min_eq_left hple]
        omega
      · rw [Nat.min_eq_right hple]
        omega

/-- C6 witness: 8 posts, page 2 → current page 2, posts at indices
6 and 7 displayed. -/
theorem renderPosts_pagination_witness :
    renderPosts Nat [] 2 = .noPosts ∧
    ∃ displayed,
      renderPosts Nat [10, 11, 12, 13, 14, 15, 16, 17] 2 =
        .page displayed
          (min 2 (([10, 11, 12, 13, 14, 15, 16, 17].length + POSTS_PER_PAGE - 1) /
            POSTS_PER_PAGE))
          (([10, 11, 12, 13, 14, 15, 16, 17].length + POSTS_PER_PAGE - 1) /
            POSTS_PER_PAGE) ∧
      displayed.length ≤ POSTS_PER_PAGE ∧
      displayed.length =
        min POSTS_PER_PAGE
          ([10, 11, 12, 13, 14, 15, 16, 17].length -
            (min 2 (([10, 11, 12, 13, 14, 15, 16, 17].length + POSTS_PER_PAGE - 1) /
              POSTS_PER_PAGE) - 1) * POSTS_PER_PAGE) ∧
      (∀ i, i < displayed.length →
        displayed[i]? =
          [10, 11, 12, 13, 14, 15, 16, 17][(min 2
              (([10, 11, 12, 13, 14, 15, 16, 17].length + POSTS_PER_PAGE - 1) /
                POSTS_PER_PAGE) - 1) * POSTS_PER_PAGE + i]?) ∧
      0 < displayed.length :=
  renderPosts_pagination Nat [10, 11, 12, 13, 14, 15, 16, 17] 2
    (by decide) (by decide)

/-- C7: for a non-empty post list, `ui.renderHomepagePosts` rotates the
stored index by 6 modulo `n` exactly when more than 2 hours have passed
since the stored last-rotation time, and displays `min 6 n` posts from
positions `(rotationIndex + i) % n`, wrapping around. -/
theorem renderHomepagePosts_rotation (α : Type) (posts : List α)
    (st : RotationState) (now : Nat) (hne : posts ≠ []) :
    (ROTATION_INTERVAL < now - st.lastRotation →
      (renderHomepagePosts α posts st now).state =
        { rotationIndex := (st.rotationIndex + 6) % posts.length,
          lastRotation := now }) ∧
    (¬ ROTATION_INTERVAL < now - st.lastRotation →
      (renderHomepagePosts α posts st now).state = st) ∧
    (renderHomepagePosts α posts st now).displayed.length = min 6 posts.length ∧
    ∀ i, i < min 6 posts.length →
      (renderHomepagePosts α posts st now).displayed[i]? =
        some
          (posts[((renderHomepagePosts α posts st now).state.rotationIndex + i) %
            posts.length]?) ∧
      (posts[((renderHomepagePosts α posts st now).state.rotationIndex + i) %
        posts.length]?).isSome := by
  have hpos : 0 < posts.length :=
    List.length_pos.mpr hne
  have hstate : (renderHomepagePosts α posts st now).state =
      if ROTATION_INTERVAL < now - st.lastRotation
      then { rotationIndex := (st.rotationIndex + 6) % posts.length,
             lastRotation := now }
      else st := by
    by_cases hrot : ROTATION_INTERVAL < now - st.lastRotation
    · simp [renderHomepagePosts, hrot]
    · simp [renderHomepagePosts, hrot]
  have hdisp : (renderHomepagePosts α posts st now).displayed =
      (List.range (min 6 posts.length)).map
        (fun i =>
          posts[((renderHomepagePosts α posts st now).state.rotationIndex + i) %
            posts.length]?) := by
    by_cases hrot : ROTATION_INTERVAL < now - st.lastRotation
    · rw [hstate, if_pos hrot]
      simp [renderHomepagePosts, hrot]
    · rw [hstate, if_neg hrot]
      simp [renderHomepagePosts, hrot]
  refine ⟨?_, ?_, ?_, ?_⟩
  · intro hrot
    rw [hstate, if_pos hrot]
  · intro hrot
    rw [hstate, if_neg hrot]
  · rw [hdisp, List.length_map, List.length_range]
  · intro i hi
    refine ⟨?_, ?_⟩
    · rw [hdisp, List.getElem?_map, List.getElem?_range hi]
      rfl
    · exact Option.isSome_iff_exists.mpr
        ⟨_, List.getElem?_eq_getElem (Nat.mod_lt _ hpos)⟩

/-- C7 witness: 3 posts, stale last rotation → index advances by
6 mod 3 = 0 here from index 1 to 1, and all 3 posts are displayed
starting at the rotated index. -/
theorem renderHomepagePosts_rotation_witness :
    (ROTATION_INTERVAL < 8000000 - 0 →
      (renderHomepagePosts Nat [20, 21, 22] ⟨1, 0⟩ 8000000).state =
        { rotationIndex := (1 + 6) % [20, 21, 22].length,
          lastRotation := 8000000 }) ∧
    (¬ ROTATION_INTERVAL < 8000000 - 0 →
      (renderHomepagePosts Nat [20, 21, 22] ⟨1, 0⟩ 8000000).state = ⟨1, 0⟩) ∧
    (renderHomepagePosts Nat [20, 21, 22] ⟨1, 0⟩ 8000000).displayed.length =
      min 6 [20, 21, 22].length ∧
    ∀ i, i < min 6 [20, 21, 22].length →
      (renderHomepagePosts Nat [20, 21, 22] ⟨1, 0⟩ 8000000).displayed[i]? =
        some
          ([20, 21, 22][((renderHomepagePosts Nat [20, 21, 22] ⟨1, 0⟩
              8000000).state.rotationIndex + i) % [20, 21, 22].length]?) ∧
      (([20, 21, 22] : List Nat)[((renderHomepagePosts Nat [20, 21, 22] ⟨1, 0⟩
          8000000).state.rotationIndex + i) % [20, 21, 22].length]?).isSome :=
  renderHomepagePosts_rotation Nat [20, 21, 22] ⟨1, 0⟩ 8000000 (by decide)

end Blog

namespace Storage

/-- Key written by `utils.storePostData(post, slug)` in blog.js:
`localStorage.setItem(` ++ "blog_post_${slug}" ++ `, ...)`. -/
def storePostData_key (slug : String) : String := "blog_post_" ++ slug

/-- Key read and written by `ChatWidget.loadChatHistory` /
`saveChatHistory` / `clearHistory`: `chat_history_${this.sessionId}`. -/
def chatHistory_key (sessionId : String) : String := "chat_history_" ++ sessionId

/-- `ScholarStatsWidget.cacheKey`. -/
def scholar_cacheKey : String := "scholar_stats_cache"

/-- Keys read and written by `ui.renderHomepagePosts` in blog.js. -/
def renderHomepagePosts_keys : List String :=
  ["blog_rotation_index", "blog_last_rotation"]

/-- Key read and removed by `VikasYadavApp.checkAuthentication` /
`validateToken` / `fetchWithAuth` in app.js. -/
def authToken_key : String := "auth_token"

/-- Key read and written by `OCRTool.loadProcessingHistory` /
`saveProcessingHistory` in app.js. -/
def ocrHistory_key : String := "ocr_processing_history"

/-- Every localStorage key any widget of the repository reads, writes or
removes, as a function of the two string parameters that occur in key
names (the chat session id and the blog post slug).  Collected from all
`localStorage.*` calls in blog.js, app.js, analytics.js and the chat
widget source. -/
def widgetStorageKeys (sessionId slug : String) : List String :=
  [chatHistory_key sessionId, scholar_cacheKey, storePostData_key slug] ++
    renderHomepagePosts_keys ++ [ocrHistory_key, authToken_key]

/-- The key set named by the spec (section 6): `chat_history_<session>`,
`scholar_stats_cache`, `blog_rotation_index`, `blog_last_rotation`,
`ocr_processing_history`, `auth_token`. -/
def specAllowedKey (k : String) : Prop :=
  (∃ s, k = "chat_history_" ++ s) ∨
  k = "scholar_stats_cache" ∨
  k = "blog_rotation_index" ∨
  k = "blog_last_rotation" ∨
  k = "ocr_processing_history" ∨
  k = "auth_token"

/-- The spec's key set extended with the blog post detail entries
`blog_post_<slug>` that `utils.storePostData` writes. -/
def amendedAllowedKey (k : String) : Prop :=
  specAllowedKey k ∨ (∃ s, k = "blog_post_" ++ s)

/-- C3 counterexample: rendering any blog post card stores its data
under `blog_post_<slug>` — here slug `x` — and that key is outside the
spec's key set. -/
theorem storePostData_key_outside_spec_set :
    storePostData_key "x" ∈ widgetStorageKeys "s" "x" ∧
    ¬ specAllowedKey (storePostData_key "x") := by
  constructor
  · simp [widgetStorageKeys]
  · intro h
    rcases h with ⟨s, hs⟩ | h | h | h | h | h
    · have hlen := congrArg String.length hs
      rw [String.length_append] at hlen
      have h1 : (storePostData_key "x").length = 11 := rfl
      have h2 : ("chat_history_" : String).length = 13 := rfl
      omega
    all_goals simp [storePostData_key] at h

/-- C3 (amended): every localStorage key the widgets read or write is
either one of the spec's six keys or a blog post detail key
`blog_post_<slug>`. -/
theorem widgetStorageKeys_allowed (sessionId slug k : String)
    (hk : k ∈ widgetStorageKeys sessionId slug) : amendedAllowedKey k := by
  simp [widgetStorageKeys, chatHistory_key, scholar_cacheKey,
    storePostData_key, renderHomepagePosts_keys, ocrHistory_key,
    authToken_key] at hk
  rcases hk with h | h | h | h | h | h | h
  · exact Or.inl (Or.inl ⟨sessionId, h⟩)
  · exact Or.inl (Or.inr (Or.inl h))
  · exact Or.inr ⟨slug, h⟩
  · exact Or.inl (Or.inr (Or.inr (Or.inl h)))
  · exact Or.inl (Or.inr (Or.inr (Or.inr (Or.inl h))))
  · exact Or.inl (Or.inr (Or.inr (Or.inr (Or.inr (Or.inl h)))))
  · exact Or.inl (Or.inr (Or.inr (Or.inr (Or.inr (Or.inr h)))))

/-- C3 (amended) witness: the chat history key for session `abc` is in
the amended allowed set. -/
theorem widgetStorageKeys_allowed_witness :
    amendedAllowedKey "chat_history_abc" :=
  widgetStorageKeys_allowed "abc" "x" "chat_history_abc" (by simp [widgetStorageKeys, chatHistory_key])

end Storage

namespace Chat

/-- One entry of `ChatWidget.messageHistory` and of the rendered chat:
the fields `addMessage(content, sender, options)` records.  Bot messages
carry the server's `suggestions` and `timestamp`; error placeholders set
`isError`. -/
structure ChatMessage where
  content : String
  sender : String
  timestamp : String
  suggestions : List String
  isError : Bool
deriving DecidableEq, Repr

/-- The `context` object built by `ChatWidget.getContext()`. -/
structure ChatContext where
  page : String
  referrer : String
  messageCount : Nat
  timestamp : String
deriving DecidableEq, Repr

/-- The JSON body `ChatWidget.sendMessage` POSTs: exactly the fields
`message`, `sessionId` and `context`. -/
structure ChatRequestBody where
  message : String
  sessionId : String
  context : ChatContext
deriving DecidableEq, Repr

/-- The chat endpoint's reply as `sendMessage` inspects it:
`response.ok` plus the parsed body fields `success`, `response`,
`sessionId`, `suggestions` and `timestamp`. -/
structure ChatResponse where
  ok : Bool
  success : Bool
  response : String
  sessionId : String
  suggestions : List String
  timestamp : String
deriving Repr

/-- The widget state `sendMessage` reads and updates. -/
structure ChatState where
  sessionId : String
  reconnectAttempts : Nat
  messageHistory : List ChatMessage
deriving Repr

/-- `ChatWidget.saveChatHistory()`: persists
`this.messageHistory.slice(-50)` under `chat_history_<sessionId>` —
the last 50 messages (all of them when there are fewer). -/
def saveChatHistory (history : List ChatMessage) : List ChatMessage :=
  history.drop (history.length - 50)

/-- `ChatWidget.addMessage(...)` on the history: append the message,
then persist via `saveChatHistory`.  Returns the new in-memory history
and the persisted copy. -/
def addMessage (history : List ChatMessage) (m : ChatMessage) :
    List ChatMessage × List ChatMessage :=
  let h := history ++ [m]
  (h, saveChatHistory h)

/-- `ChatWidget.getContext()`, called while building the POST body
(after the user message was pushed onto `messageHistory`). -/
def getContext (history : List ChatMessage) (page referrer nowIso : String) :
    ChatContext :=
  { page := page, referrer := referrer, messageCount := history.length,
    timestamp := nowIso }

/-- `ChatWidget.sendMessage()`.  `input` is the raw text box content,
`page`/`referrer`/`nowIso` the ambient browser values, `resp` what the
endpoint would answer.  Returns the state afterwards and the request
body that was POSTed (`none` when the trimmed message is empty and no
request is made). -/
def sendMessage (st : ChatState) (input page referrer nowIso : String)
    (resp : ChatResponse) : ChatState × Option ChatRequestBody :=
  let message := jsTrim input
  if message = "" then (st, none)
  else
    let histAfterUser := st.messageHistory ++
      [{ content := message, sender := "user", timestamp := nowIso,
         suggestions := [], isError := false }]
    let req : ChatRequestBody :=
      { message := message, sessionId := st.sessionId,
        context := getContext histAfterUser page referrer nowIso }
    if resp.ok ∧ resp.success then
      ({ sessionId := resp.sessionId, reconnectAttempts := 0,
         messageHistory := histAfterUser ++
           [{ content := resp.response, sender := "bot",
              timestamp := resp.timestamp, suggestions := resp.suggestions,
              isError := false }] }, some req)
    else
      ({ sessionId := st.sessionId,
         reconnectAttempts := st.reconnectAttempts + 1,
         messageHistory := histAfterUser ++
           [{ content := "I'm having trouble connecting right now. Please try again in a moment.",
              sender := "bot", timestamp := nowIso, suggestions := [],
              isError := true }] }, some req)

/-- C5: a non-empty message is POSTed as `{message, sessionId, context}`
with the widget's current session id, and on an ok, successful response
the widget adopts the returned session id, appends a bot message
carrying the returned `response`, `suggestions` and `timestamp`, and
resets the reconnect counter to 0. -/
theorem sendMessage_success (st : ChatState)
    (input page referrer nowIso : String) (resp : ChatResponse)
    (hne : jsTrim input ≠ "") :
    (∃ req, (sendMessage st input page referrer nowIso resp).2 = some req ∧
      req.message = jsTrim input ∧
      req.sessionId = st.sessionId ∧
      req.context =
        { page := page, referrer := referrer,
          messageCount := st.messageHistory.length + 1,
          timestamp := nowIso }) ∧
    (resp.ok = true → resp.success = true →
      (sendMessage st input page referrer nowIso resp).1.sessionId =
        resp.sessionId ∧
      (sendMessage st input page referrer nowIso resp).1.reconnectAttempts = 0 ∧
      (sendMessage st input page referrer nowIso resp).1.messageHistory =
        st.messageHistory ++
          [{ content := jsTrim input, sender := "user", timestamp := nowIso,
             suggestions := [], isError := false },
           { content := resp.response, sender := "bot",
             timestamp := resp.timestamp, suggestions := resp.suggestions,
             isError := false }]) := by
  constructor
  · unfold sendMessage
    rw [if_neg hne]
    by_cases hok : resp.ok ∧ resp.success
    · rw [if_pos hok]
      exact ⟨_, rfl, rfl, rfl, by simp [getContext]⟩
    · rw [if_neg hok]
      exact ⟨_, rfl, rfl, rfl, by simp [getContext]⟩
  · intro hok hsucc
    unfold sendMessage
    rw [if_neg hne, if_pos ⟨hok, hsucc⟩]
    exact ⟨rfl, rfl, by simp⟩

/-- C5 witness: concrete state, message and successful response. -/
theorem sendMessage_success_witness :
    (∃ req,
      (sendMessage ⟨"sess0", 2, []⟩ " hi " "/" "" "t0"
          ⟨true, true, "hello", "sess1", ["a"], "t1"⟩).2 = some req ∧
      req.message = jsTrim " hi " ∧
      req.sessionId = "sess0" ∧
      req.context =
        { page := "/", referrer := "", messageCount := 0 + 1,
          timestamp := "t0" }) ∧
    (true = true → true = true →
      (sendMessage ⟨"sess0", 2, []⟩ " hi " "/" "" "t0"
          ⟨true, true, "hello", "sess1", ["a"], "t1"⟩).1.sessionId = "sess1" ∧
      (sendMessage ⟨"sess0", 2, []⟩ " hi " "/" "" "t0"
          ⟨true, true, "hello", "sess1", ["a"], "t1"⟩).1.reconnectAttempts = 0 ∧
      (sendMessage ⟨"sess0", 2, []⟩ " hi " "/" "" "t0"
          ⟨true, true, "hello", "sess1", ["a"], "t1"⟩).1.messageHistory =
        [] ++
          [{ content := jsTrim " hi ", sender := "user",
             timestamp := "t0", suggestions := [], isError := false },
           { content := "hello", sender := "bot", timestamp := "t1",
             suggestions := ["a"], isError := false }]) := by
  have h := sendMessage_success ⟨"sess0", 2, []⟩ " hi " "/" "" "t0"
    ⟨true, true, "hello", "sess1", ["a"], "t1"⟩ (by decide)
  exact ⟨h.1, fun _ _ => h.2 rfl rfl⟩

/-- C9: after any message is appended to the chat history, the
persisted copy is a suffix of the in-memory history of length
`min (length) 50`: the most recent messages in order, at most 50 of
them, ending with the message just added. -/
theorem addMessage_persists_last_fifty (history : List ChatMessage)
    (m : ChatMessage) :
    (addMessage history m).1 = history ++ [m] ∧
    List.IsSuffix (addMessage history m).2 (addMessage history m).1 ∧
    (addMessage history m).2.length ≤ 50 ∧
    (addMessage history m).2.length = min (history.length + 1) 50 := by
  unfold addMessage saveChatHistory
  refine ⟨rfl, List.drop_suffix _ _, ?_, ?_⟩
  · simp
    omega
  · simp
    omega

/-- C9 witness: appending one message to an empty history persists
exactly that message. -/
theorem addMessage_persists_last_fifty_witness :
    (addMessage []
        { content := "hi", sender := "user", timestamp := "t",
          suggestions := [], isError := false }).1 =
      [] ++
        [{ content := "hi", sender := "user", timestamp := "t",
           suggestions := [], isError := false }] ∧
    List.IsSuffix
      (addMessage []
        { content := "hi", sender := "user", timestamp := "t",
          suggestions := [], isError := false }).2
      (addMessage []
        { content := "hi", sender := "user", timestamp := "t",
          suggestions := [], isError := false }).1 ∧
    (addMessage []
        { content := "hi", sender := "user", timestamp := "t",
          suggestions := [], isError := false }).2.length ≤ 50 ∧
    (addMessage []
        { content := "hi", sender := "user", timestamp := "t",
          suggestions := [], isError := false }).2.length =
      min ((List.nil (α := ChatMessage)).length + 1) 50 :=
  addMessage_persists_last_fifty []
    { content := "hi", sender := "user", timestamp := "t",
      suggestions := [], isError := false }

end Chat

namespace OCR

/-- `OCRTool.maxFileSize = 10 * 1024 * 1024`. -/
def maxFileSize : Nat := 10 * 1024 * 1024

/-- `OCRTool.supportedTypes`. -/
def supportedTypes : List String :=
  ["image/jpeg", "image/png", "image/webp", "image/tiff", "application/pdf"]

/-- The two file attributes `OCRTool.validateFile` inspects. -/
structure OCRFile where
  size : Nat
  type : String
deriving DecidableEq, Repr

/-- `OCRTool.validateFile(file)`: the returned boolean and the error
message shown via `showError` (`none` when the file is accepted). -/
def validateFile (file : OCRFile) : Bool × Option String :=
  if maxFileSize < file.size then
    (false, some "File size exceeds 10MB limit")
  else if !(supportedTypes.contains file.type) then
    (false,
      some "Unsupported file type. Please use JPEG, PNG, WebP, TIFF, or PDF files.")
  else (true, none)

/-- `OCRTool.handleFileUpload(e)` up to the network call: a missing or
invalid file aborts before `fetch`; otherwise the file is POSTed to the
OCR extraction endpoint. -/
def handleFileUpload (file : Option OCRFile) : Option OCRFile :=
  match file with
  | none => none
  | some f => if (validateFile f).1 then some f else none

/-- C10: `validateFile` accepts exactly the files of size at most
10485760 bytes (10 MB itself included) whose MIME type is one of the
five supported types; every rejected file yields `false` together with
an error message, and no upload request is issued for it. -/
theorem validateFile_spec (f : OCRFile) :
    ((validateFile f).1 = true ↔
      (f.size ≤ 10485760 ∧
        (f.type = "image/jpeg" ∨ f.type = "image/png" ∨
         f.type = "image/webp" ∨ f.type = "image/tiff" ∨
         f.type = "application/pdf"))) ∧
    ((validateFile f).1 = false → ((validateFile f).2.isSome ∧
      handleFileUpload (some f) = none)) ∧
    handleFileUpload none = none ∧
    ((validateFile f).1 = true → handleFileUpload (some f) = some f) := by
  refine ⟨?_, ?_, rfl, ?_⟩
  · unfold validateFile
    by_cases hsize : maxFileSize < f.size
    · rw [if_pos hsize]
      simp only [maxFileSize] at hsize
      simp
      omega
    · rw [if_neg hsize]
      simp only [maxFileSize] at hsize
      by_cases htype : supportedTypes.contains f.type
      · rw [htype]
        simp [supportedTypes] at htype
        simp
        constructor
        · omega
        · tauto
      · rw [Bool.not_eq_true] at htype
        rw [htype]
        simp [supportedTypes] at htype
        simp
        intro hle
        tauto
  · intro hfalse
    refine ⟨?_, ?_⟩
    · unfold validateFile at hfalse ⊢
      by_cases hsize : maxFileSize < f.size
      · rw [if_pos hsize]
        rfl
      · rw [if_neg hsize] at hfalse ⊢
        by_cases htype : supportedTypes.contains f.type
        · rw [htype] at hfalse
          simp at hfalse
        · rw [Bool.not_eq_true] at htype
          rw [htype]
          rfl
    · simp [handleFileUpload, hfalse]
  · intro htrue
    simp [handleFileUpload, htrue]

/-- C10 witness: a 10 MB PNG is accepted and uploaded; an 11 MB PNG is
rejected with an error and never uploaded. -/
theorem validateFile_spec_witness :
    ((validateFile ⟨10485760, "image/png"⟩).1 = true ∧
      handleFileUpload (some ⟨10485760, "image/png"⟩) =
        some ⟨10485760, "image/png"⟩) ∧
    ((validateFile ⟨11534336, "image/png"⟩).2.isSome ∧
      handleFileUpload (some ⟨11534336, "image/png"⟩) = none) :=
  ⟨⟨by decide,
    (validateFile_spec ⟨10485760, "image/png"⟩).2.2.2 (by decide)⟩,
   (validateFile_spec ⟨11534336, "image/png"⟩).2.1 (by decide)⟩

end OCR
